import Mathlib

/-!
# Terminal Session Manager — shallow embedding

A shallow embedding of `src-tauri/src/commands/terminal.rs` (the Terminal
Session Manager of the agent-station repository) together with proofs of the
specification's claims about it.

Modelling conventions:
* `Arc<Mutex<T>>` shared handles (the liveness flag, the PTY writer, and the
  PTY master) are modelled as indices into per-kind stores held in the global
  state, so a handle outlives the removal of its registry entry — exactly as
  reference-counted ownership does in the source.
* A `Mutex` can be poisoned; each store carries a poison flag per slot and the
  registry map lock carries its own.  Operations treat poisoning exactly as the
  source does: `map_err` sites turn it into an error result, `if let Ok(..)`
  sites silently skip, `unwrap_or(false)` sites substitute the default.
* `HashMap<String, TerminalInstance>` is an association list with the usual
  insert / get / remove semantics.
* Fallible external calls (opening the PTY, spawning the shell, cloning the
  reader, taking the writer, the write/flush/resize syscalls) are modelled by
  explicit success/failure parameters supplied by the environment.
* Bytes are `Nat` (values < 256 in every reachable state); a Rust `String`
  contributes its UTF-8 bytes via `strBytes`, the model of `str::as_bytes`.
-/

/-- The error outcomes of the command layer.  The source returns
`Result<_, String>`; each constructor corresponds to one distinct message
produced in `terminal.rs`. -/
inductive TErr where
  /-- "Failed to open PTY: …" -/
  | ptyOpenErr : TErr
  /-- "Failed to spawn command: …" -/
  | spawnCmdErr : TErr
  /-- "Failed to clone reader: …" -/
  | cloneReaderErr : TErr
  /-- "Failed to take writer: …" -/
  | takeWriterErr : TErr
  /-- `e.to_string()` of a `PoisonError` from a `.lock().map_err(..)` site. -/
  | lockErr : TErr
  /-- "Terminal not found" -/
  | notFound : TErr
  /-- "Failed to write to terminal: …" -/
  | ioWriteErr : TErr
  /-- "Failed to flush: …" -/
  | ioFlushErr : TErr
  /-- "Failed to resize terminal: …" -/
  | ioResizeErr : TErr
deriving DecidableEq, Repr

/-- Whether an error is one of the write/flush/resize syscall failures that the
specification groups as `IOError`. -/
def TErr.isIOError : TErr → Bool
  | .ioWriteErr => true
  | .ioFlushErr => true
  | .ioResizeErr => true
  | _ => false

/-- `TerminalInfo` — the serialized snapshot record `{id, projectId, isRunning}`. -/
structure TerminalInfo where
  id : String
  projectId : String
  isRunning : Bool
deriving DecidableEq, Repr

/-- `TerminalInstance` — a registry entry.  The `writer`, `master` and
`running` fields are indices into the shared stores (the model of the three
`Arc<Mutex<..>>` handles). -/
structure TerminalInstance where
  id : String
  project_id : String
  writer : Nat
  master : Nat
  running : Nat
deriving DecidableEq, Repr

/-- Pointwise update of a store, the model of writing through a shared handle. -/
def upd {α : Type} (f : Nat → α) (i : Nat) (v : α) : Nat → α :=
  fun j => if j = i then v else f j

/-- The global state: the `TerminalManager` registry plus the stores backing
the shared `Arc<Mutex<..>>` handles.  `n*` counters give out fresh slots. -/
structure TMState where
  /-- The `terminals: Mutex<HashMap<String, TerminalInstance>>` map. -/
  terminals : List (String × TerminalInstance)
  /-- Whether the registry map's own mutex is poisoned. -/
  regPoisoned : Bool
  /-- Number of allocated liveness cells. -/
  nCells : Nat
  /-- Value of each liveness cell (`Arc<Mutex<bool>>`). -/
  cellVal : Nat → Bool
  /-- Poison flag of each liveness cell's mutex. -/
  cellPois : Nat → Bool
  /-- Number of allocated writer handles. -/
  nWriters : Nat
  /-- Bytes written so far through each writer handle. -/
  writerBuf : Nat → List Nat
  /-- Poison flag of each writer handle's mutex. -/
  writerPois : Nat → Bool
  /-- Number of allocated master handles. -/
  nMasters : Nat
  /-- Current geometry (cols, rows) of each master handle. -/
  masterSize : Nat → Nat × Nat
  /-- Poison flag of each master handle's mutex. -/
  masterPois : Nat → Bool

/-- `HashMap::get` on the association-list model. -/
def mapGet (m : List (String × TerminalInstance)) (k : String) :
    Option TerminalInstance :=
  match m with
  | [] => none
  | (k', v) :: rest => if k' = k then some v else mapGet rest k

/-- `HashMap::insert` (replacing any existing binding for the key). -/
def mapInsert (m : List (String × TerminalInstance)) (k : String)
    (v : TerminalInstance) : List (String × TerminalInstance) :=
  match m with
  | [] => [(k, v)]
  | (k', v') :: rest =>
    if k' = k then (k, v) :: rest else (k', v') :: mapInsert rest k v

/-- `HashMap::remove`: afterwards the map holds no binding for `k`.  (Keys of
a `HashMap` are unique, so dropping every pair carrying `k` coincides with
dropping the single binding.) -/
def mapRemove (m : List (String × TerminalInstance)) (k : String) :
    List (String × TerminalInstance) :=
  match m with
  | [] => []
  | (k', v') :: rest =>
    if k' = k then mapRemove rest k else (k', v') :: mapRemove rest k

/-- UTF-8 encoding of one scalar value, as in Rust's `str` representation. -/
def utf8Bytes (c : Char) : List Nat :=
  let n := c.toNat
  if n < 0x80 then [n]
  else if n < 0x800 then
    [0xC0 ||| (n >>> 6), 0x80 ||| (n &&& 0x3F)]
  else if n < 0x10000 then
    [0xE0 ||| (n >>> 12), 0x80 ||| ((n >>> 6) &&& 0x3F), 0x80 ||| (n &&& 0x3F)]
  else
    [0xF0 ||| (n >>> 18), 0x80 ||| ((n >>> 12) &&& 0x3F),
     0x80 ||| ((n >>> 6) &&& 0x3F), 0x80 ||| (n &&& 0x3F)]

/-- The model of `String::as_bytes`: the UTF-8 bytes of a Rust string. -/
def strBytes (s : String) : List Nat :=
  s.data.flatMap utf8Bytes

/-- The fallible external steps of `spawn_terminal`, plus the fresh UUID the
spawn draws.  Each flag tells whether the corresponding call succeeds. -/
structure SpawnEnv where
  /-- `pty_system.openpty(..)` succeeds. -/
  openptyOk : Bool
  /-- `pair.slave.spawn_command(cmd)` succeeds. -/
  spawnCmdOk : Bool
  /-- `pair.master.try_clone_reader()` succeeds. -/
  cloneReaderOk : Bool
  /-- `pair.master.take_writer()` succeeds. -/
  takeWriterOk : Bool
  /-- The value of `Uuid::new_v4().to_string()`. -/
  freshId : String

/-- `spawn_terminal(project_id, cwd, ..)`.  Follows the source order: open the
PTY (24 rows × 80 cols), resolve the shell and build the command (infallible),
spawn the child, generate the id, clone the reader, take the writer, then under
the registry lock insert the `TerminalInstance` with a fresh liveness cell set
to `true`; only then is the id returned.  Any failure returns the
corresponding error with the state unchanged. -/
def spawn_terminal (env : SpawnEnv) (project_id : String) (cwd : String)
    (st : TMState) : Except TErr String × TMState :=
  let _ := cwd
  if !env.openptyOk then (.error .ptyOpenErr, st)
  else if !env.spawnCmdOk then (.error .spawnCmdErr, st)
  else if !env.cloneReaderOk then (.error .cloneReaderErr, st)
  else if !env.takeWriterOk then (.error .takeWriterErr, st)
  else if st.regPoisoned then (.error .lockErr, st)
  else
    let inst : TerminalInstance :=
      { id := env.freshId, project_id := project_id,
        writer := st.nWriters, master := st.nMasters, running := st.nCells }
    let st' : TMState :=
      { st with
        terminals := mapInsert st.terminals env.freshId inst,
        nCells := st.nCells + 1,
        cellVal := upd st.cellVal st.nCells true,
        cellPois := upd st.cellPois st.nCells false,
        nWriters := st.nWriters + 1,
        writerBuf := upd st.writerBuf st.nWriters [],
        writerPois := upd st.writerPois st.nWriters false,
        nMasters := st.nMasters + 1,
        masterSize := upd st.masterSize st.nMasters (80, 24),
        masterPois := upd st.masterPois st.nMasters false }
    (.ok env.freshId, st')

/-- `write_terminal(terminal_id, data, ..)`.  `wOk` / `fOk` tell whether the
underlying `write_all` / `flush` syscalls succeed.  On a `write_all` failure no
bytes are recorded; after a successful `write_all` the UTF-8 bytes of `data`
are appended even if the subsequent `flush` fails. -/
def write_terminal (terminal_id : String) (data : String)
    (wOk : Bool) (fOk : Bool) (st : TMState) : Except TErr Unit × TMState :=
  if st.regPoisoned then (.error .lockErr, st)
  else
    match mapGet st.terminals terminal_id with
    | none => (.error .notFound, st)
    | some inst =>
      if st.writerPois inst.writer then (.error .lockErr, st)
      else if !wOk then (.error .ioWriteErr, st)
      else
        let buf' := upd st.writerBuf inst.writer
          (st.writerBuf inst.writer ++ strBytes data)
        let st' := { st with writerBuf := buf' }
        if !fOk then (.error .ioFlushErr, st') else (.ok (), st')

/-- `resize_terminal(terminal_id, cols, rows, ..)`.  `rOk` tells whether the
underlying `resize` syscall succeeds. -/
def resize_terminal (terminal_id : String) (cols : Nat) (rows : Nat)
    (rOk : Bool) (st : TMState) : Except TErr Unit × TMState :=
  if st.regPoisoned then (.error .lockErr, st)
  else
    match mapGet st.terminals terminal_id with
    | none => (.error .notFound, st)
    | some inst =>
      if st.masterPois inst.master then (.error .lockErr, st)
      else if !rOk then (.error .ioResizeErr, st)
      else
        (.ok (),
         { st with masterSize := upd st.masterSize inst.master (cols, rows) })

/-- `kill_terminal(terminal_id, ..)`.  Removes the entry; when one was present,
sets its liveness cell to `false` (skipped if that mutex is poisoned, the
`if let Ok` in the source) and best-effort writes the single byte `3` (Ctrl+C)
through the writer handle (skipped if that mutex is poisoned; `ioOk` tells
whether the ignored `write_all(&[3])` succeeds).  Always returns `Ok(())`
unless the registry lock itself is poisoned. -/
def kill_terminal (terminal_id : String) (ioOk : Bool) (st : TMState) :
    Except TErr Unit × TMState :=
  if st.regPoisoned then (.error .lockErr, st)
  else
    match mapGet st.terminals terminal_id with
    | none => (.ok (), st)
    | some inst =>
      let st1 := { st with terminals := mapRemove st.terminals terminal_id }
      let st2 :=
        if st1.cellPois inst.running then st1
        else { st1 with cellVal := upd st1.cellVal inst.running false }
      let buf' := upd st2.writerBuf inst.writer
        (st2.writerBuf inst.writer ++ [3])
      let st3 :=
        if st2.writerPois inst.writer then st2
        else if ioOk then { st2 with writerBuf := buf' }
        else st2
      (.ok (), st3)

/-- `get_terminal_status(terminal_id, ..)`.  Returns the liveness value for a
registered id (falling through to `Ok(false)` when the cell's mutex is
poisoned) and `Ok(false)` for an unknown id. -/
def get_terminal_status (terminal_id : String) (st : TMState) :
    Except TErr Bool × TMState :=
  if st.regPoisoned then (.error .lockErr, st)
  else
    match mapGet st.terminals terminal_id with
    | some inst =>
      if st.cellPois inst.running then (.ok false, st)
      else (.ok (st.cellVal inst.running), st)
    | none => (.ok false, st)

/-- The `isRunning` value `list_terminals` / `get_terminal_for_project`
compute: `running.lock().map(|r| *r).unwrap_or(false)`. -/
def runningOf (st : TMState) (inst : TerminalInstance) : Bool :=
  if st.cellPois inst.running then false else st.cellVal inst.running

/-- `get_terminal_for_project(project_id, ..)`: first entry (in iteration
order) whose `project_id` matches, if any. -/
def findByProject (st : TMState) (project_id : String) :
    List (String × TerminalInstance) → Option TerminalInfo
  | [] => none
  | (_, inst) :: rest =>
    if inst.project_id = project_id then
      some { id := inst.id, projectId := inst.project_id,
             isRunning := runningOf st inst }
    else findByProject st project_id rest

/-- `get_terminal_for_project(project_id, ..)`. -/
def get_terminal_for_project (project_id : String) (st : TMState) :
    Except TErr (Option TerminalInfo) × TMState :=
  if st.regPoisoned then (.error .lockErr, st)
  else (.ok (findByProject st project_id st.terminals), st)

/-- `list_terminals(..)`: a snapshot `{id, projectId, isRunning}` of every
registered session. -/
def list_terminals (st : TMState) : Except TErr (List TerminalInfo) × TMState :=
  if st.regPoisoned then (.error .lockErr, st)
  else
    (.ok (st.terminals.map fun p =>
       { id := p.2.id, projectId := p.2.project_id,
         isRunning := runningOf st p.2 }), st)

/-! ## The reader loop

The reader thread of `spawn_terminal` repeatedly reads up to 4096 bytes; each
successful read of `n > 0` bytes is lossily decoded and emitted as a
`terminal-output` event; on `Ok(0)` (EOF) or `Err(_)` the loop breaks, sets
the liveness cell to `false` (under `if let Ok`, so skipped when poisoned) and
emits a single `terminal-exit` event with empty data.  We model one complete
run of the loop: the input is the list of decoded non-empty chunks the reads
produced before the stream ended or errored. -/

/-- The events emitted through `app_handle.emit`. -/
inductive TEvent where
  /-- `emit("terminal-output", { terminalId, data })`. -/
  | output (terminalId : String) (data : String) : TEvent
  /-- `emit("terminal-exit", { terminalId, data })`. -/
  | exitEv (terminalId : String) (data : String) : TEvent
deriving DecidableEq, Repr

/-- The observable actions of a reader-loop run, in order. -/
inductive RAction where
  /-- An event emission. -/
  | emit (e : TEvent) : RAction
  /-- Writing the liveness cell (the `*running = false` assignment). -/
  | setLiveness (b : Bool) : RAction
deriving DecidableEq, Repr

/-- The ordered action trace of one complete reader-loop run for session
`tid`: one output emission per decoded chunk, then (unless the liveness
mutex is poisoned) the `false` assignment, then the single exit emission. -/
def readerLoopTrace (tid : String) (chunks : List String) (pois : Bool) :
    List RAction :=
  (chunks.map fun c => RAction.emit (.output tid c)) ++
    (if pois then [] else [RAction.setLiveness false]) ++
      [RAction.emit (.exitEv tid "")]

/-- The effect of the reader loop's termination on the shared state: the
liveness cell `cIdx` is set to `false` unless its mutex is poisoned.  The
loop touches nothing else — in particular not the registry map. -/
def readerLoopFinish (cIdx : Nat) (st : TMState) : TMState :=
  if st.cellPois cIdx then st
  else { st with cellVal := upd st.cellVal cIdx false }

/-- Whether an action emits a `terminal-output` event for session `tid`. -/
def isOutputFor (tid : String) : RAction → Bool
  | .emit (.output t _) => t = tid
  | _ => false

/-- Whether an action emits a `terminal-exit` event for session `tid`. -/
def isExitFor (tid : String) : RAction → Bool
  | .emit (.exitEv t _) => t = tid
  | _ => false

/-! ## Lock/I-O action traces of the command handlers

For the lock-discipline claim we record, straight from the source text of
`write_terminal` and `resize_terminal`, the order in which each handler
acquires and releases locks and performs terminal I/O.  In Rust a
`MutexGuard` is dropped at the end of its scope, so `let terminals =
state.terminals.lock()…?` holds the registry lock until the function returns;
guards are dropped in reverse declaration order. -/

/-- The locks a command handler can hold. -/
inductive LockId where
  /-- The registry map's mutex (`state.terminals`). -/
  | registry : LockId
  /-- A session's writer mutex (`terminal.writer`). -/
  | writerL : LockId
  /-- A session's master mutex (`terminal.master`). -/
  | masterL : LockId
deriving DecidableEq, Repr

/-- One step of a command handler, as visible to the lock discipline. -/
inductive CAction where
  /-- `lock()` on the given mutex. -/
  | acquire (l : LockId) : CAction
  /-- Dropping the guard of the given mutex. -/
  | release (l : LockId) : CAction
  /-- A map lookup/mutation under the registry lock. -/
  | mapOp : CAction
  /-- A terminal I/O syscall (`write_all`, `flush`, or `resize`). -/
  | termio : CAction
deriving DecidableEq, Repr

/-- The action trace of a successful `write_terminal` call: the registry
guard is taken first and dropped last; `write_all` and `flush` happen in
between. -/
def write_terminal_actions : List CAction :=
  [.acquire .registry, .mapOp, .acquire .writerL, .termio, .termio,
   .release .writerL, .release .registry]

/-- The action trace of a successful `resize_terminal` call. -/
def resize_terminal_actions : List CAction :=
  [.acquire .registry, .mapOp, .acquire .masterL, .termio,
   .release .masterL, .release .registry]

/-- `regHeldAcrossTermio tr held` is `true` iff some terminal I/O action in
`tr` happens while the registry lock is held (`held` is whether it is held on
entry). -/
def regHeldAcrossTermio : List CAction → Bool → Bool
  | [], _ => false
  | .acquire .registry :: rest, _ => regHeldAcrossTermio rest true
  | .release .registry :: rest, _ => regHeldAcrossTermio rest false
  | .termio :: rest, held => held || regHeldAcrossTermio rest held
  | _ :: rest, held => regHeldAcrossTermio rest held

/-! ## The step relation

One step of the system: any single Command API call, or the termination of a
reader loop.  Used to state the liveness-monotonicity invariant. -/

/-- `Step st st'`: `st'` is reachable from `st` by one operation of the
Terminal Session Manager. -/
inductive Step : TMState → TMState → Prop where
  | spawn (env : SpawnEnv) (pid cwd : String) (st : TMState) :
      Step st (spawn_terminal env pid cwd st).2
  | write (tid data : String) (wOk fOk : Bool) (st : TMState) :
      Step st (write_terminal tid data wOk fOk st).2
  | resize (tid : String) (cols rows : Nat) (rOk : Bool) (st : TMState) :
      Step st (resize_terminal tid cols rows rOk st).2
  | kill (tid : String) (ioOk : Bool) (st : TMState) :
      Step st (kill_terminal tid ioOk st).2
  | status (tid : String) (st : TMState) :
      Step st (get_terminal_status tid st).2
  | find (pid : String) (st : TMState) :
      Step st (get_terminal_for_project pid st).2
  | list (st : TMState) :
      Step st (list_terminals st).2
  | reader (cIdx : Nat) (st : TMState) :
      Step st (readerLoopFinish cIdx st)

/-! ## Concrete states for evaluation -/

/-- The empty manager, as `TerminalManager::new()` builds it. -/
def st0 : TMState :=
  { terminals := [], regPoisoned := false,
    nCells := 0, cellVal := fun _ => false, cellPois := fun _ => false,
    nWriters := 0, writerBuf := fun _ => [], writerPois := fun _ => false,
    nMasters := 0, masterSize := fun _ => (0, 0), masterPois := fun _ => false }

/-- An environment in which every external call of `spawn_terminal`
succeeds and the fresh UUID is `"t1"`. -/
def env0 : SpawnEnv :=
  { openptyOk := true, spawnCmdOk := true, cloneReaderOk := true,
    takeWriterOk := true, freshId := "t1" }

/-- The state after one successful spawn on the empty manager. -/
def st1 : TMState := (spawn_terminal env0 "p1" "/tmp" st0).2

/-- `st1` after the reader loop of session `"t1"` has terminated. -/
def stDead : TMState := readerLoopFinish 0 st1

/-- A registry entry whose shared handles all live in slot 0. -/
def instP : TerminalInstance :=
  { id := "t1", project_id := "p1", writer := 0, master := 0, running := 0 }

/-- A state holding session `"t1"` whose liveness-cell and writer mutexes are
poisoned (a prior holder panicked) while the registry lock is healthy. -/
def stPois : TMState :=
  { terminals := [("t1", instP)], regPoisoned := false,
    nCells := 1, cellVal := fun _ => true, cellPois := fun _ => true,
    nWriters := 1, writerBuf := fun _ => [], writerPois := fun _ => true,
    nMasters := 1, masterSize := fun _ => (80, 24),
    masterPois := fun _ => false }

/-- A state holding session `"t1"` whose registry map lock is poisoned. -/
def stRegPois : TMState := { stPois with regPoisoned := true }

/-! ## Map lemmas -/

/-- Looking up the key just inserted returns the inserted value. -/
theorem mapGet_mapInsert_self (m : List (String × TerminalInstance))
    (k : String) (v : TerminalInstance) :
    mapGet (mapInsert m k v) k = some v := by
  induction m with
  | nil => simp [mapInsert, mapGet]
  | cons p rest ih =>
    obtain ⟨k', v'⟩ := p
    by_cases h : k' = k <;> simp [mapInsert, mapGet, h, ih]

/-- Looking up the key just removed returns nothing. -/
theorem mapGet_mapRemove_self (m : List (String × TerminalInstance))
    (k : String) : mapGet (mapRemove m k) k = none := by
  induction m with
  | nil => simp [mapRemove, mapGet]
  | cons p rest ih =>
    obtain ⟨k', v'⟩ := p
    by_cases h : k' = k <;> simp [mapRemove, mapGet, h, ih]

/-- A successful lookup exhibits a member of the underlying list. -/
theorem mem_of_mapGet_eq_some {m : List (String × TerminalInstance)}
    {k : String} {v : TerminalInstance} (h : mapGet m k = some v) :
    (k, v) ∈ m := by
  induction m with
  | nil => simp [mapGet] at h
  | cons p rest ih =>
    obtain ⟨k', v'⟩ := p
    by_cases hk : k' = k
    · subst hk
      simp [mapGet] at h
      simp [h]
    · simp [mapGet, hk] at h
      exact List.mem_cons_of_mem _ (ih h)

/-! ## Frame lemmas: what each operation leaves untouched -/

/-- `get_terminal_status` never mutates the state. -/
theorem get_terminal_status_state (tid : String) (st : TMState) :
    (get_terminal_status tid st).2 = st := by
  unfold get_terminal_status
  repeat' split
  all_goals rfl

/-- `get_terminal_for_project` never mutates the state. -/
theorem get_terminal_for_project_state (pid : String) (st : TMState) :
    (get_terminal_for_project pid st).2 = st := by
  unfold get_terminal_for_project
  repeat' split
  all_goals rfl

/-- `list_terminals` never mutates the state. -/
theorem list_terminals_state (st : TMState) :
    (list_terminals st).2 = st := by
  unfold list_terminals
  repeat' split
  all_goals rfl

/-- `write_terminal` touches only the writer buffers. -/
theorem write_terminal_frame (tid data : String) (wOk fOk : Bool)
    (st : TMState) :
    ((write_terminal tid data wOk fOk st).2).terminals = st.terminals ∧
    ((write_terminal tid data wOk fOk st).2).cellVal = st.cellVal ∧
    ((write_terminal tid data wOk fOk st).2).nCells = st.nCells := by
  simp only [write_terminal]
  repeat' split
  all_goals exact ⟨rfl, rfl, rfl⟩

/-- `resize_terminal` touches only the master geometries. -/
theorem resize_terminal_frame (tid : String) (cols rows : Nat) (rOk : Bool)
    (st : TMState) :
    ((resize_terminal tid cols rows rOk st).2).terminals = st.terminals ∧
    ((resize_terminal tid cols rows rOk st).2).cellVal = st.cellVal ∧
    ((resize_terminal tid cols rows rOk st).2).nCells = st.nCells := by
  simp only [resize_terminal]
  repeat' split
  all_goals exact ⟨rfl, rfl, rfl⟩

/-- `kill_terminal` does not allocate or deallocate liveness cells, and the
only write it may perform on a cell stores `false`. -/
theorem kill_terminal_cellVal_mono (tid : String) (ioOk : Bool) (st : TMState)
    (i : Nat) (h : st.cellVal i = false) :
    ((kill_terminal tid ioOk st).2).nCells = st.nCells ∧
    ((kill_terminal tid ioOk st).2).cellVal i = false := by
  simp only [kill_terminal]
  repeat' split
  all_goals refine ⟨rfl, ?_⟩
  all_goals simp only [upd]
  all_goals first
    | exact h
    | (split <;> simp [h])

/-- `spawn_terminal` allocates one fresh liveness cell and leaves every
existing cell untouched. -/
theorem spawn_terminal_cellVal_frame (env : SpawnEnv) (pid cwd : String)
    (st : TMState) (i : Nat) (hi : i < st.nCells) :
    st.nCells ≤ ((spawn_terminal env pid cwd st).2).nCells ∧
    ((spawn_terminal env pid cwd st).2).cellVal i = st.cellVal i := by
  simp only [spawn_terminal]
  repeat' split
  all_goals dsimp only
  all_goals refine ⟨by omega, ?_⟩
  all_goals simp only [upd]
  split
  · omega
  · rfl

/-- The reader loop's termination writes at most one cell, storing `false`. -/
theorem readerLoopFinish_cellVal_mono (cIdx : Nat) (st : TMState) (i : Nat)
    (h : st.cellVal i = false) :
    (readerLoopFinish cIdx st).nCells = st.nCells ∧
    (readerLoopFinish cIdx st).cellVal i = false := by
  simp only [readerLoopFinish]
  split
  · exact ⟨rfl, h⟩
  · refine ⟨rfl, ?_⟩
    simp only [upd]
    split <;> simp [h]

/-! ## Claim C1 — spawn atomicity -/

/-- C1: `spawn_terminal` is atomic with respect to the registry: a session id
is returned to the caller only with the `Session` record for that id already
inserted into the registry, and every earlier failure (PTY allocation, shell
spawn, cloning the reader, taking the writer, or the registry lock at
insertion) returns an error and leaves the state — in particular the registry
— exactly as it was. -/
theorem spawn_terminal_atomic (env : SpawnEnv) (pid cwd : String)
    (st : TMState) :
    (∀ tid st', spawn_terminal env pid cwd st = (.ok tid, st') →
       tid = env.freshId ∧
       mapGet st'.terminals tid =
         some { id := env.freshId, project_id := pid, writer := st.nWriters,
                master := st.nMasters, running := st.nCells }) ∧
    (∀ e st', spawn_terminal env pid cwd st = (.error e, st') → st' = st) := by
  constructor
  · intro tid st' h
    simp only [spawn_terminal] at h
    repeat' split at h
    all_goals simp only [Prod.mk.injEq] at h
    all_goals try exact Except.noConfusion h.1
    obtain ⟨h1, h2⟩ := h
    obtain rfl : env.freshId = tid := Except.ok.inj h1
    subst h2
    exact ⟨rfl, mapGet_mapInsert_self ..⟩
  · intro e st' h
    simp only [spawn_terminal] at h
    repeat' split at h
    all_goals simp only [Prod.mk.injEq] at h
    all_goals first
      | exact Except.noConfusion h.1
      | exact h.2.symm

/-- C1, evaluated: on the empty manager with every external call succeeding,
the spawn returns id `"t1"` and the registry then holds its record. -/
theorem spawn_terminal_atomic_witness :
    spawn_terminal env0 "p1" "/tmp" st0 =
      (.ok "t1", (spawn_terminal env0 "p1" "/tmp" st0).2) ∧
    mapGet ((spawn_terminal env0 "p1" "/tmp" st0).2).terminals "t1" =
      some { id := "t1", project_id := "p1", writer := 0, master := 0,
             running := 0 } :=
  ⟨rfl, ((spawn_terminal_atomic env0 "p1" "/tmp" st0).1 "t1"
    (spawn_terminal env0 "p1" "/tmp" st0).2 rfl).2⟩

/-! ## Claim C7 — status -/

/-- C7: `get_terminal_status` returns the current liveness flag for a
registered id (whose flag mutex is healthy), and `Ok false` — a normal
result, not an error — for an unknown id. -/
theorem get_terminal_status_spec (tid : String) (st : TMState)
    (hreg : st.regPoisoned = false) :
    (mapGet st.terminals tid = none →
       get_terminal_status tid st = (.ok false, st)) ∧
    (∀ inst, mapGet st.terminals tid = some inst →
       st.cellPois inst.running = false →
       get_terminal_status tid st = (.ok (st.cellVal inst.running), st)) := by
  constructor
  · intro h
    simp [get_terminal_status, hreg, h]
  · intro inst h hp
    simp [get_terminal_status, hreg, h, hp]

/-- C7, evaluated: the status of the freshly spawned `"t1"` is `Ok true`, and
the status of the unknown id `"zz"` is `Ok false`. -/
theorem get_terminal_status_spec_witness :
    st1.regPoisoned = false ∧
    get_terminal_status "t1" st1 = (.ok true, st1) ∧
    get_terminal_status "zz" st1 = (.ok false, st1) :=
  ⟨rfl,
   (get_terminal_status_spec "t1" st1 rfl).2 instP rfl rfl,
   (get_terminal_status_spec "zz" st1 rfl).1 rfl⟩

/-! ## Claim C3 — kill -/

/-- C3: `kill_terminal` removes the session from the registry; an absent id
(never spawned, or already killed) yields success as a no-op, not an error;
for a removed session the liveness flag is set to `false` and the single
interrupt byte `3` (Ctrl+C) is written to its input channel before the handle
is discarded. -/
theorem kill_terminal_spec (tid : String) (st : TMState)
    (hreg : st.regPoisoned = false) :
    (mapGet st.terminals tid = none →
       ∀ ioOk, kill_terminal tid ioOk st = (.ok (), st)) ∧
    (∀ inst, mapGet st.terminals tid = some inst →
       st.cellPois inst.running = false →
       st.writerPois inst.writer = false →
       (kill_terminal tid true st).1 = .ok () ∧
       mapGet ((kill_terminal tid true st).2).terminals tid = none ∧
       ((kill_terminal tid true st).2).cellVal inst.running = false ∧
       ((kill_terminal tid true st).2).writerBuf inst.writer =
         st.writerBuf inst.writer ++ [3]) := by
  constructor
  · intro h ioOk
    simp [kill_terminal, hreg, h]
  · intro inst h hc hw
    simp [kill_terminal, hreg, h, hc, hw, upd, mapGet_mapRemove_self]

/-- C3, evaluated: killing `"t1"` in `st1` succeeds, deregisters it, clears
its liveness flag and appends the byte `3` to its input channel; a second
kill of the now-absent id is a no-op success. -/
theorem kill_terminal_spec_witness :
    (kill_terminal "t1" true st1).1 = .ok () ∧
    mapGet ((kill_terminal "t1" true st1).2).terminals "t1" = none ∧
    ((kill_terminal "t1" true st1).2).cellVal 0 = false ∧
    ((kill_terminal "t1" true st1).2).writerBuf 0 = [3] ∧
    kill_terminal "t1" true (kill_terminal "t1" true st1).2 =
      (.ok (), (kill_terminal "t1" true st1).2) := by
  have h := (kill_terminal_spec "t1" st1 rfl).2 instP rfl rfl rfl
  refine ⟨h.1, h.2.1, h.2.2.1, h.2.2.2, ?_⟩
  exact (kill_terminal_spec "t1" (kill_terminal "t1" true st1).2 rfl).1
    h.2.1 true

/-! ## Claim C6 — write -/

/-- C6: `write_terminal` fails with `NotFound` for an absent id; for a
registered session it writes all the UTF-8 bytes of `data` through the input
channel and flushes, an `IOError` being returned if the write or the flush
syscall fails; a failed write leaves the session registered. -/
theorem write_terminal_spec (tid data : String) (st : TMState)
    (hreg : st.regPoisoned = false) :
    (mapGet st.terminals tid = none →
       ∀ wOk fOk, write_terminal tid data wOk fOk st =
         (.error .notFound, st)) ∧
    (∀ inst, mapGet st.terminals tid = some inst →
       st.writerPois inst.writer = false →
       (write_terminal tid data true true st).1 = .ok () ∧
       ((write_terminal tid data true true st).2).writerBuf inst.writer =
         st.writerBuf inst.writer ++ strBytes data ∧
       (∀ wOk fOk, wOk = false ∨ fOk = false →
          ∃ e, (write_terminal tid data wOk fOk st).1 = .error e ∧
            e.isIOError = true ∧
            mapGet ((write_terminal tid data wOk fOk st).2).terminals tid =
              some inst)) := by
  constructor
  · intro h wOk fOk
    simp [write_terminal, hreg, h]
  · intro inst h hw
    refine ⟨?_, ?_, ?_⟩
    · simp [write_terminal, hreg, h, hw]
    · simp [write_terminal, hreg, h, hw, upd]
    · intro wOk fOk hor
      cases wOk with
      | false =>
        exact ⟨.ioWriteErr, by simp [write_terminal, hreg, h, hw], rfl,
          by simp [write_terminal, hreg, h, hw]⟩
      | true =>
        have hf : fOk = false := by
          rcases hor with h0 | h0
          · exact absurd h0 (by simp)
          · exact h0
        subst hf
        exact ⟨.ioFlushErr, by simp [write_terminal, hreg, h, hw], rfl,
          by simp [write_terminal, hreg, h, hw]⟩

/-- C6, evaluated: writing to the unknown id `"zz"` fails with NotFound; a
successful write to `"t1"` appends the UTF-8 bytes of `"hi"`; a failed flush
surfaces an `IOError` and leaves `"t1"` registered. -/
theorem write_terminal_spec_witness :
    write_terminal "zz" "hi" true true st1 = (.error .notFound, st1) ∧
    ((write_terminal "t1" "hi" true true st1).2).writerBuf 0 =
      [104, 105] ∧
    mapGet ((write_terminal "t1" "hi" true false st1).2).terminals "t1" =
      some instP := by
  have h := (write_terminal_spec "t1" "hi" st1 rfl).2 instP rfl rfl
  refine ⟨(write_terminal_spec "zz" "hi" st1 rfl).1 rfl true true, ?_, ?_⟩
  · have h2 := h.2.1
    simpa using h2
  · obtain ⟨e, _, _, h3⟩ := h.2.2 true false (Or.inr rfl)
    exact h3

/-! ## Claim C10 — the write interface carries only UTF-8 text -/

/-- C10: the public write operation takes a `String`, and the byte sequence
recorded on the session's input channel by a write is exactly the UTF-8
encoding of that string (all of it on success — and on a flush failure — or
nothing on a write failure), so no byte sequence outside the range of the
UTF-8 encoding can ever be submitted through the write interface. -/
theorem write_terminal_utf8_only (tid data : String) (st : TMState)
    (inst : TerminalInstance)
    (hreg : st.regPoisoned = false)
    (hget : mapGet st.terminals tid = some inst)
    (hpois : st.writerPois inst.writer = false) :
    ((write_terminal tid data true true st).2).writerBuf inst.writer =
      st.writerBuf inst.writer ++ strBytes data ∧
    (∀ wOk fOk,
       ((write_terminal tid data wOk fOk st).2).writerBuf inst.writer =
           st.writerBuf inst.writer ++ strBytes data ∨
       ((write_terminal tid data wOk fOk st).2).writerBuf inst.writer =
           st.writerBuf inst.writer) ∧
    (∃ s : String, strBytes data = strBytes s) := by
  refine ⟨by simp [write_terminal, hreg, hget, hpois, upd], ?_, ⟨data, rfl⟩⟩
  intro wOk fOk
  cases wOk with
  | false => exact Or.inr (by simp [write_terminal, hreg, hget, hpois])
  | true =>
    cases fOk with
    | false =>
      exact Or.inl (by simp [write_terminal, hreg, hget, hpois, upd])
    | true =>
      exact Or.inl (by simp [write_terminal, hreg, hget, hpois, upd])

/-- C10, evaluated: the bytes recorded for the write of `"hé"` to `"t1"` are
exactly its UTF-8 encoding `[104, 195, 169]`. -/
theorem write_terminal_utf8_only_witness :
    ((write_terminal "t1" "hé" true true st1).2).writerBuf 0 =
      st1.writerBuf 0 ++ [104, 195, 169] := by
  have h := (write_terminal_utf8_only "t1" "hé" st1 instP rfl rfl rfl).1
  simpa using h

/-- For a registered id, `kill_terminal` leaves the registry map exactly with
that binding removed, whatever the poison state of the session's mutexes. -/
theorem kill_terminal_removes (tid : String) (ioOk : Bool) (st : TMState)
    (hreg : st.regPoisoned = false) (inst : TerminalInstance)
    (hget : mapGet st.terminals tid = some inst) :
    ((kill_terminal tid ioOk st).2).terminals = mapRemove st.terminals tid := by
  simp only [kill_terminal, hreg, hget]
  repeat' split
  all_goals simp_all

/-! ## Claim C5 — a dead session persists until killed -/

/-- C5: when the reader loop of a registered session terminates (stream end
or I/O error), it only clears the liveness cell: the registry entry stays.
Afterwards `get_terminal_status` answers `Ok false`, `list_terminals` still
lists the id — with `isRunning := false` — and only an explicit
`kill_terminal` removes the entry. -/
theorem dead_session_persists (tid : String) (st : TMState)
    (inst : TerminalInstance)
    (hreg : st.regPoisoned = false)
    (hget : mapGet st.terminals tid = some inst)
    (hpois : st.cellPois inst.running = false) :
    (readerLoopFinish inst.running st).terminals = st.terminals ∧
    (get_terminal_status tid (readerLoopFinish inst.running st)).1 =
      .ok false ∧
    (∃ l, (list_terminals (readerLoopFinish inst.running st)).1 = .ok l ∧
       TerminalInfo.mk inst.id inst.project_id false ∈ l) ∧
    mapGet ((kill_terminal tid true
      (readerLoopFinish inst.running st)).2).terminals tid = none := by
  have hterm : (readerLoopFinish inst.running st).terminals = st.terminals := by
    simp [readerLoopFinish, hpois]
  have hreg' : (readerLoopFinish inst.running st).regPoisoned = false := by
    simp [readerLoopFinish, hpois, hreg]
  have hget' : mapGet (readerLoopFinish inst.running st).terminals tid =
      some inst := by rw [hterm]; exact hget
  refine ⟨hterm, ?_, ?_, ?_⟩
  · simp [get_terminal_status, readerLoopFinish, hpois, hreg, hget, upd]
  · refine ⟨(readerLoopFinish inst.running st).terminals.map fun p =>
      { id := p.2.id, projectId := p.2.project_id,
        isRunning := runningOf (readerLoopFinish inst.running st) p.2 },
      ?_, ?_⟩
    · simp [list_terminals, hreg']
    · refine List.mem_map.mpr ⟨(tid, inst), ?_, ?_⟩
      · rw [hterm]; exact mem_of_mapGet_eq_some hget
      · simp [runningOf, readerLoopFinish, hpois, upd]
  · rw [kill_terminal_removes tid true _ hreg' inst hget', hterm]
    exact mapGet_mapRemove_self st.terminals tid

/-- C5, evaluated: in `stDead` (the state after the reader loop of `"t1"`
ended), the status is `Ok false`, the listing still carries `"t1"` as not
running, and a kill then deregisters it. -/
theorem dead_session_persists_witness :
    stDead.terminals = st1.terminals ∧
    (get_terminal_status "t1" stDead).1 = .ok false ∧
    (∃ l, (list_terminals stDead).1 = .ok l ∧
       TerminalInfo.mk "t1" "p1" false ∈ l) ∧
    mapGet ((kill_terminal "t1" true stDead).2).terminals "t1" = none :=
  dead_session_persists "t1" st1 instP rfl rfl rfl

/-! ## Claim C2 — reader loop exit protocol -/

/-- Output emissions are not exit emissions. -/
theorem filter_isExitFor_outputs (tid : String) (chunks : List String) :
    (chunks.map fun c => RAction.emit (.output tid c)).filter
      (isExitFor tid) = [] := by
  induction chunks with
  | nil => rfl
  | cons c rest ih => simp [isExitFor, ih]

/-- C2: one complete reader-loop run emits exactly one terminal-exit event,
with empty data, as its very last action — hence after every terminal-output
event of the session, with no further terminal-output following it — and
(when the liveness mutex is healthy) the loop has already terminated reading
and set the session's liveness flag to false before that emission. -/
theorem reader_loop_exit_spec (tid : String) (chunks : List String)
    (st : TMState) (cIdx : Nat) (hpois : st.cellPois cIdx = false) :
    readerLoopTrace tid chunks (st.cellPois cIdx) =
      (chunks.map fun c => RAction.emit (.output tid c)) ++
        [RAction.setLiveness false, RAction.emit (.exitEv tid "")] ∧
    ((readerLoopTrace tid chunks (st.cellPois cIdx)).filter
        (isExitFor tid)).length = 1 ∧
    (readerLoopTrace tid chunks (st.cellPois cIdx)).getLast? =
      some (RAction.emit (.exitEv tid "")) ∧
    (∀ a ∈ (readerLoopTrace tid chunks (st.cellPois cIdx)).dropLast,
       isExitFor tid a = false) ∧
    (readerLoopFinish cIdx st).cellVal cIdx = false := by
  rw [hpois]
  have htr : readerLoopTrace tid chunks false =
      ((chunks.map fun c => RAction.emit (.output tid c)) ++
        [RAction.setLiveness false]) ++ [RAction.emit (.exitEv tid "")] := by
    simp [readerLoopTrace]
  refine ⟨by simp [readerLoopTrace], ?_, ?_, ?_, ?_⟩
  · rw [htr]
    simp [List.filter_append, filter_isExitFor_outputs, isExitFor]
  · rw [htr, List.getLast?_concat]
  · rw [htr, List.dropLast_concat]
    intro a ha
    rcases List.mem_append.mp ha with h | h
    · rcases List.mem_map.mp h with ⟨c, _, rfl⟩
      rfl
    · rcases List.mem_singleton.mp h with rfl
      rfl
  · simp [readerLoopFinish, hpois, upd]

/-- C2, evaluated at a two-chunk run for session `"t1"` in `st1`. -/
theorem reader_loop_exit_spec_witness :
    st1.cellPois 0 = false ∧
    readerLoopTrace "t1" ["hel", "lo"] (st1.cellPois 0) =
      [RAction.emit (.output "t1" "hel"), RAction.emit (.output "t1" "lo"),
       RAction.setLiveness false, RAction.emit (.exitEv "t1" "")] ∧
    (readerLoopFinish 0 st1).cellVal 0 = false :=
  ⟨rfl, (reader_loop_exit_spec "t1" ["hel", "lo"] st1 0 rfl).1,
   (reader_loop_exit_spec "t1" ["hel", "lo"] st1 0 rfl).2.2.2.2⟩

/-! ## Claim C8 — liveness is monotone per session instance -/

/-- C8: the liveness flag of a session is initialized `true` at spawn, and no
operation of the system — spawn, write, resize, kill, status, list,
find-by-project, or a reader loop — ever flips an existing liveness cell from
`false` back to `true`. -/
theorem liveness_monotone :
    (∀ st st', Step st st' →
       ∀ i, i < st.nCells → st.cellVal i = false → st'.cellVal i = false) ∧
    (∀ env pid cwd (st : TMState) tid st',
       spawn_terminal env pid cwd st = (.ok tid, st') →
       st'.cellVal st.nCells = true) := by
  constructor
  · intro st st' hstep i hi hf
    cases hstep with
    | spawn env pid cwd st =>
      rw [(spawn_terminal_cellVal_frame env pid cwd st i hi).2]
      exact hf
    | write tid data wOk fOk st =>
      rw [(write_terminal_frame tid data wOk fOk st).2.1]
      exact hf
    | resize tid cols rows rOk st =>
      rw [(resize_terminal_frame tid cols rows rOk st).2.1]
      exact hf
    | kill tid ioOk st =>
      exact (kill_terminal_cellVal_mono tid ioOk st i hf).2
    | status tid st =>
      rw [get_terminal_status_state tid st]
      exact hf
    | find pid st =>
      rw [get_terminal_for_project_state pid st]
      exact hf
    | list st =>
      rw [list_terminals_state st]
      exact hf
    | reader cIdx st =>
      exact (readerLoopFinish_cellVal_mono cIdx st i hf).2
  · intro env pid cwd st tid st' h
    simp only [spawn_terminal] at h
    repeat' split at h
    all_goals simp only [Prod.mk.injEq] at h
    all_goals try exact Except.noConfusion h.1
    obtain ⟨h1, h2⟩ := h
    subst h2
    simp [upd]

/-- C8, evaluated: in `stDead` the flag of cell 0 is `false`, and it is still
`false` after a further `list_terminals` step. -/
theorem liveness_monotone_witness :
    (0 < stDead.nCells ∧ stDead.cellVal 0 = false) ∧
    ((list_terminals stDead).2).cellVal 0 = false :=
  ⟨⟨by decide, rfl⟩,
   liveness_monotone.1 stDead (list_terminals stDead).2 (Step.list stDead) 0
     (by decide) rfl⟩

/-! ## Claim C4 — lock discipline of write and resize (refuted) -/

/-- C4 counterexample: contrary to the claimed lock discipline, both `write`
and `resize` perform their terminal I/O while the registry's coarse-grained
lock is held: the registry guard taken on the first line of each handler
lives to the end of the function body, past `write_all`/`flush`/`resize`. -/
theorem write_resize_io_under_registry_lock :
    regHeldAcrossTermio write_terminal_actions false = true ∧
    regHeldAcrossTermio resize_terminal_actions false = true := by decide

/-- C4 (amended): `write_terminal` and `resize_terminal` acquire the registry
lock as their first action and release it only as their last, so their
write/flush/resize syscalls run with the registry lock held, and two
simultaneous calls — a write on session A and a resize on session B —
serialize on that lock instead of completing independently. -/
theorem write_resize_hold_registry_lock :
    write_terminal_actions.head? = some (CAction.acquire .registry) ∧
    write_terminal_actions.getLast? = some (CAction.release .registry) ∧
    regHeldAcrossTermio write_terminal_actions false = true ∧
    resize_terminal_actions.head? = some (CAction.acquire .registry) ∧
    resize_terminal_actions.getLast? = some (CAction.release .registry) ∧
    regHeldAcrossTermio resize_terminal_actions false = true := by decide

/-! ## Claim C9 — surfacing of poisoned locks (refuted for the liveness and
kill-path locks) -/

/-- C9 counterexample: in `stPois` the liveness-flag mutex and the writer
mutex of the registered session `"t1"` are poisoned, yet `get_terminal_status`
silently answers `Ok false` — a substituted default, not a `LockError` — the
`list_terminals` snapshot reports `isRunning = false`, and `kill_terminal`
returns `Ok` while silently skipping both the liveness update and the
interrupt write. -/
theorem poisoned_locks_not_surfaced :
    stPois.cellPois instP.running = true ∧
    stPois.writerPois instP.writer = true ∧
    mapGet stPois.terminals "t1" = some instP ∧
    (get_terminal_status "t1" stPois).1 = .ok false ∧
    (get_terminal_status "t1" stPois).1 ≠ .error .lockErr ∧
    (list_terminals stPois).1 =
      .ok [{ id := "t1", projectId := "p1", isRunning := false }] ∧
    (kill_terminal "t1" true stPois).1 = .ok () ∧
    ((kill_terminal "t1" true stPois).2).cellVal 0 = true ∧
    ((kill_terminal "t1" true stPois).2).writerBuf 0 = [] :=
  ⟨rfl, rfl, rfl, rfl, fun h => Except.noConfusion h, rfl, rfl, rfl, rfl⟩

/-- C9 (amended): a poisoned registry map lock is surfaced as a `LockError`
by every Command API operation, and a poisoned input-channel or
control-channel lock is surfaced as a `LockError` by `write` and `resize`
respectively; but a poisoned liveness-flag lock is never surfaced — `status`
substitutes the default `false` and `kill` silently skips the liveness
update — and a poisoned input-channel lock makes `kill` silently skip the
interrupt write rather than report an error. -/
theorem lock_poison_behavior (tid data : String) (cols rows : Nat)
    (st : TMState) :
    (st.regPoisoned = true →
       (∀ wOk fOk, (write_terminal tid data wOk fOk st).1 = .error .lockErr) ∧
       (∀ rOk, (resize_terminal tid cols rows rOk st).1 = .error .lockErr) ∧
       (∀ ioOk, (kill_terminal tid ioOk st).1 = .error .lockErr) ∧
       (get_terminal_status tid st).1 = .error .lockErr ∧
       (get_terminal_for_project tid st).1 = .error .lockErr ∧
       (list_terminals st).1 = .error .lockErr ∧
       (∀ env cwd, env.openptyOk = true → env.spawnCmdOk = true →
          env.cloneReaderOk = true → env.takeWriterOk = true →
          (spawn_terminal env tid cwd st).1 = .error .lockErr)) ∧
    (st.regPoisoned = false →
       ∀ inst, mapGet st.terminals tid = some inst →
       (st.writerPois inst.writer = true →
          ∀ wOk fOk,
            (write_terminal tid data wOk fOk st).1 = .error .lockErr) ∧
       (st.masterPois inst.master = true →
          ∀ rOk, (resize_terminal tid cols rows rOk st).1 = .error .lockErr) ∧
       (st.cellPois inst.running = true →
          (get_terminal_status tid st).1 = .ok false ∧
          ∀ ioOk, (kill_terminal tid ioOk st).1 = .ok () ∧
            ((kill_terminal tid ioOk st).2).cellVal = st.cellVal) ∧
       (st.writerPois inst.writer = true →
          ∀ ioOk,
            ((kill_terminal tid ioOk st).2).writerBuf = st.writerBuf)) := by
  constructor
  · intro h
    refine ⟨fun wOk fOk => by simp [write_terminal, h],
      fun rOk => by simp [resize_terminal, h],
      fun ioOk => by simp [kill_terminal, h],
      by simp [get_terminal_status, h],
      by simp [get_terminal_for_project, h],
      by simp [list_terminals, h],
      fun env cwd h1 h2 h3 h4 => by simp [spawn_terminal, h, h1, h2, h3, h4]⟩
  · intro h inst hget
    refine ⟨?_, ?_, ?_, ?_⟩
    · intro hw wOk fOk
      simp [write_terminal, h, hget, hw]
    · intro hm rOk
      simp [resize_terminal, h, hget, hm]
    · intro hc
      refine ⟨by simp [get_terminal_status, h, hget, hc], ?_⟩
      intro ioOk
      constructor
      · simp [kill_terminal, h, hget]
      · simp only [kill_terminal, h, hget]
        repeat' split
        all_goals simp_all
    · intro hw ioOk
      simp only [kill_terminal, h, hget]
      repeat' split
      all_goals simp_all

/-- C9 (amended), evaluated: a poisoned registry lock turns `status` into a
`LockError`, while a poisoned liveness lock leaves it an `Ok false`. -/
theorem lock_poison_behavior_witness :
    stRegPois.regPoisoned = true ∧
    (get_terminal_status "t1" stRegPois).1 = .error .lockErr ∧
    stPois.cellPois instP.running = true ∧
    (get_terminal_status "t1" stPois).1 = .ok false :=
  ⟨rfl,
   ((lock_poison_behavior "t1" "x" 1 1 stRegPois).1 rfl).2.2.2.1,
   rfl,
   (((lock_poison_behavior "t1" "x" 1 1 stPois).2 rfl instP rfl).2.2.1
     rfl).1⟩
